import Mathlib

/-!
Shallow embedding of `server.py` (a FastAPI-based YouTube download server)
and verification of its specified request/response behaviour.

The server delegates all video extraction to an external collaborator
(`yt_dlp`); here the collaborator's behaviour is an explicit parameter
(a function from the URL to an `Except`-valued outcome), and filesystem
effects (`os.makedirs`, `os.path.exists`) are fields of an explicit world.
-/

namespace YtServer

/-- Model of `os.path.expanduser`: replaces a leading `~` with the home
directory.  Only the `~/...` form is used by the server. -/
def expanduser (home path : String) : String :=
  match path.data with
  | '~' :: '/' :: rest => home ++ String.mk ('/' :: rest)
  | _ => path

/-- `DOWNLOAD_FOLDER = os.path.expanduser("~/Downloads/YouTube")` (line 21).
Parametrised by the home directory the process sees. -/
def DOWNLOAD_FOLDER (home : String) : String :=
  expanduser home "~/Downloads/YouTube"

/-- `COOKIE_FILE = os.path.join(os.path.dirname(__file__), "cookies.txt")`
(line 24), parametrised by the directory holding the server's source file. -/
def COOKIE_FILE (serverDir : String) : String :=
  serverDir ++ "/cookies.txt"

/-- `get_quality_format` (lines 60-68): the dict lookup
`quality_formats.get(quality, quality_formats["1080"])` rendered as the
equivalent chain of equality tests. -/
def get_quality_format (quality : String) : String :=
  if quality = "2160" then
    "bestvideo[height<=2160][ext=mp4]+bestaudio[ext=m4a]/best[height<=2160][ext=mp4]/best"
  else if quality = "1080" then
    "bestvideo[height<=1080][ext=mp4]+bestaudio[ext=m4a]/best[height<=1080][ext=mp4]/best"
  else if quality = "720" then
    "bestvideo[height<=720][ext=mp4]+bestaudio[ext=m4a]/best[height<=720][ext=mp4]/best"
  else if quality = "480" then
    "bestvideo[height<=480][ext=mp4]+bestaudio[ext=m4a]/best[height<=480][ext=mp4]/best"
  else
    "bestvideo[height<=1080][ext=mp4]+bestaudio[ext=m4a]/best[height<=1080][ext=mp4]/best"

/-! ### The `/info` handler -/

/-- One entry of the collaborator's `formats` list, restricted to the keys
the handler reads with `.get`.  `none` models an absent key. -/
structure FormatEntry where
  height : Option Int
  ext : Option String
  format_id : Option String
deriving DecidableEq, Repr

/-- The collaborator's metadata dictionary, restricted to the keys
`get_video_info` reads.  `none` models an absent key. -/
structure VideoInfo where
  title : Option String
  channel : Option String
  duration : Option Int
  thumbnail : Option String
  formats : Option (List FormatEntry)
deriving DecidableEq, Repr

/-- Python truthiness of `f.get("height")`: `None` and `0` are falsy. -/
def heightTruthy : Option Int → Bool
  | none => false
  | some h => h != 0

/-- One element appended to the handler's `formats` response list
(lines 141-146). -/
structure FormatOut where
  height : Option Int
  format_id : Option String
deriving DecidableEq, Repr

/-- The filtering loop of `get_video_info` (lines 138-146):
`if f.get("height") and f.get("ext") == "mp4"` keeps the entry, projected
to its `height` and `format_id`. -/
def collectFormats (fs : List FormatEntry) : List FormatOut :=
  fs.filterMap fun f =>
    if heightTruthy f.height && (f.ext == some "mp4") then
      some { height := f.height, format_id := f.format_id }
    else
      none

/-- The JSON body returned by `/info`: either the success projection
(lines 148-155) or the failure shape
`{"success": False, "message": str(e)}` (line 157). -/
inductive InfoResponse where
  | ok (title channel : String) (duration : Int) (thumbnail : String)
      (formats : List FormatOut)
  | err (message : String)
deriving DecidableEq, Repr

/-- The `formats` list carried by an `/info` response body (empty for the
failure shape, which has no such key). -/
def infoFormats : InfoResponse → List FormatOut
  | .ok _ _ _ _ fs => fs
  | .err _ => []

/-- `get_video_info` (lines 125-157) applied to the outcome of
`ydl.extract_info(url, download=False)`: the whole body sits inside
`try/except Exception`, so an extraction error becomes the failure shape
and nothing escapes the handler. -/
def get_video_info (extractResult : Except String VideoInfo) : InfoResponse :=
  match extractResult with
  | .error e => .err e
  | .ok info =>
      .ok (info.title.getD "Unknown") (info.channel.getD "Unknown")
        (info.duration.getD 0) (info.thumbnail.getD "")
        (collectFormats (info.formats.getD []))

/-! ### The download job runner -/

/-- The `ydl_opts` dictionary built by `do_download` (lines 75-91).
`cookiefile = none` models the key being absent. -/
structure YdlOpts where
  format : String
  outtmpl : String
  merge_output_format : String
  quiet : Bool
  no_warnings : Bool
  noplaylist : Bool
  cookiefile : Option String
deriving DecidableEq, Repr

/-- The options bundle handed to `yt_dlp.YoutubeDL` for a download at the
given quality (lines 75-91). -/
def build_ydl_opts (quality home serverDir : String) (cookieExists : Bool) :
    YdlOpts :=
  { format := get_quality_format quality
    outtmpl := DOWNLOAD_FOLDER home ++ "/%(title)s_%(height)sp.%(ext)s"
    merge_output_format := "mp4"
    quiet := false
    no_warnings := false
    noplaylist := true
    cookiefile := if cookieExists then some (COOKIE_FILE serverDir) else none }

/-- The slice of the metadata returned by the download-mode
`ydl.extract_info` that `do_download` reads (line 96). -/
structure DlInfo where
  title : Option String
deriving DecidableEq, Repr

/-- Console lines printed by `do_download`, kept structured. -/
inductive LogLine where
  | usingCookies (path : String)
  | noCookies (path : String)
  | downloaded (title : String)
  | errorLine (msg : String)
deriving DecidableEq, Repr

/-- What a completed (non-raising) run of `do_download` produced: its
console log and the options bundle it handed to the collaborator. -/
structure DlResult where
  logs : List LogLine
  opts : YdlOpts
deriving DecidableEq, Repr

/-- The effectful environment a download job runs against:
the outcome of `os.makedirs(DOWNLOAD_FOLDER, exist_ok=True)` (line 73),
the result of `os.path.exists(COOKIE_FILE)` (line 85), and the outcome of
`ydl.extract_info(url, download=True)` (line 95) as a function of the URL. -/
structure DlWorld where
  makedirs : Except String Unit
  cookieExists : Bool
  extract : String → Except String DlInfo

/-- `do_download` (lines 71-98).  `os.makedirs` runs before the
`try` block, so its exception propagates (`Except.error`); the
`yt_dlp` call sits inside `try/except Exception`, whose handler prints
the error. -/
def do_download (url quality home serverDir : String) (w : DlWorld) :
    Except String DlResult :=
  match w.makedirs with
  | .error e => .error e
  | .ok _ =>
      let opts := build_ydl_opts quality home serverDir w.cookieExists
      let cookieLog :=
        if w.cookieExists then LogLine.usingCookies (COOKIE_FILE serverDir)
        else LogLine.noCookies (COOKIE_FILE serverDir)
      match w.extract url with
      | .ok info =>
          .ok { logs := [cookieLog, .downloaded (info.title.getD "Unknown")]
                opts := opts }
      | .error e =>
          .ok { logs := [cookieLog, .errorLine e], opts := opts }

/-! ### The HTTP routing layer -/

/-- An HTTP GET request: its query parameters. -/
structure Request where
  params : List (String × String)
deriving DecidableEq, Repr

/-- First value bound to a query parameter name, if any. -/
def getParam (r : Request) (k : String) : Option String :=
  (r.params.find? fun p => p.1 == k).map Prod.snd

/-- Outcome of routing a request: FastAPI rejects a request missing a
required `Query(...)` parameter with a client-error status before the
handler runs; otherwise the handler's return value is serialised with
status 200. -/
inductive RouteResult (β : Type) where
  | clientError (code : Nat)
  | handled (body : β)
deriving DecidableEq, Repr

/-- Transport-level status of a routed response: 200 whenever the handler
returned a body. -/
def http_status {β : Type} : RouteResult β → Nat
  | .clientError code => code
  | .handled _ => 200

/-- The `/info` route (lines 125-157): `url: str = Query(...)` is
required, so a request without it is rejected with 422 and the
collaborator `collab` is never consulted. -/
def info_route (r : Request) (collab : String → Except String VideoInfo) :
    RouteResult InfoResponse :=
  match getParam r "url" with
  | none => .clientError 422
  | some url => .handled (get_video_info (collab url))

/-- The acknowledgment body of `/download` (lines 170-173). -/
structure DownloadAck where
  success : Bool
  message : String
deriving DecidableEq, Repr

/-- A background task registered with `background_tasks.add_task`
(line 168): the arguments `do_download` will later be applied to. -/
structure ScheduledJob where
  url : String
  quality : String
deriving DecidableEq, Repr

/-- `download_video` (lines 160-173): schedules the job and returns the
fixed acknowledgment. -/
def download_video (url quality : String) : DownloadAck × ScheduledJob :=
  ({ success := true
     message := "Download started! Check your Downloads/YouTube folder." },
   { url := url, quality := quality })

/-- The `/download` route: `url` is required (`Query(...)`),
`quality` defaults to `"1080"` (`Query("1080")`). -/
def download_route (r : Request) : RouteResult (DownloadAck × ScheduledJob) :=
  match getParam r "url" with
  | none => .clientError 422
  | some url => .handled (download_video url ((getParam r "quality").getD "1080"))

/-- The `/download` route together with the later execution of the
scheduled background job against world `w`: the acknowledgment is built
before the job runs. -/
def download_endpoint (r : Request) (home serverDir : String) (w : DlWorld) :
    RouteResult (DownloadAck × Except String DlResult) :=
  match download_route r with
  | .clientError c => .clientError c
  | .handled (ack, j) =>
      .handled (ack, do_download j.url j.quality home serverDir w)

/-- The filesystem state `/status` could in principle observe (it does
not: the handler reads only the configured path string). -/
structure FsState where
  downloadDirExists : Bool
deriving DecidableEq, Repr

/-- The JSON body returned by `/status` (lines 118-122). -/
structure StatusResponse where
  success : Bool
  message : String
  download_folder : String
deriving DecidableEq, Repr

/-- `get_status` (lines 115-122): returns the configured folder path
without touching the filesystem `fs`. -/
def get_status (home : String) (fs : FsState) : StatusResponse :=
  { success := true
    message := "Server is running"
    download_folder := DOWNLOAD_FOLDER home }

/-! ### Concrete metadata fixtures -/

/-- Metadata whose only format entry has a height and `mp4` container but
no `format_id` key. -/
def badFormatsInfo : VideoInfo :=
  { title := none, channel := none, duration := none, thumbnail := none
    formats := some [{ height := some 360, ext := some "mp4", format_id := none }] }

/-- Metadata whose only format entry is a well-formed `mp4` entry. -/
def goodFormatsInfo : VideoInfo :=
  { title := some "t", channel := none, duration := none, thumbnail := none
    formats := some [{ height := some 720, ext := some "mp4", format_id := some "22" }] }

/-- Metadata whose only format entry is `mp4` with `height` present but
zero (falsy in Python). -/
def zeroHeightInfo : VideoInfo :=
  { title := none, channel := none, duration := none, thumbnail := none
    formats := some [{ height := some 0, ext := some "mp4", format_id := some "18" }] }

/-! ### Theorems -/

/-- Membership in the handler's filtered `formats` list: exactly the
entries with a truthy height and `mp4` container, projected to
height and format identifier. -/
theorem mem_collectFormats_iff (fs : List FormatEntry) (out : FormatOut) :
    out ∈ collectFormats fs ↔
      ∃ f ∈ fs, heightTruthy f.height = true ∧ f.ext = some "mp4" ∧
        out = ⟨f.height, f.format_id⟩ := by
  simp only [collectFormats, List.mem_filterMap]
  constructor
  · rintro ⟨f, hf, hsome⟩
    split at hsome
    · next hc =>
        rw [Option.some.injEq] at hsome
        rw [Bool.and_eq_true, beq_iff_eq] at hc
        exact ⟨f, hf, hc.1, hc.2, hsome.symm⟩
    · exact absurd hsome (by simp)
  · rintro ⟨f, hf, h1, h2, rfl⟩
    exact ⟨f, hf, by simp [h1, h2]⟩

/-- C1: `get_quality_format` is a pure function; the four recognised
tokens map to pairwise distinct format expressions, and any other input
maps to exactly the expression returned for `"1080"`. -/
theorem quality_resolver_default_and_distinct (q : String)
    (h2160 : q ≠ "2160") (h1080 : q ≠ "1080") (h720 : q ≠ "720")
    (h480 : q ≠ "480") :
    get_quality_format q = get_quality_format "1080" ∧
      ([get_quality_format "2160", get_quality_format "1080",
        get_quality_format "720", get_quality_format "480"].Pairwise (· ≠ ·)) := by
  constructor
  · simp [get_quality_format, h2160, h1080, h720, h480]
  · simp [get_quality_format]

/-- C1 witness: the arbitrary token `"high"` resolves to the `"1080"`
expression, and the four recognised tokens are pairwise distinct. -/
theorem quality_resolver_default_and_distinct_witness :
    get_quality_format "high" = get_quality_format "1080" ∧
      ([get_quality_format "2160", get_quality_format "1080",
        get_quality_format "720", get_quality_format "480"].Pairwise (· ≠ ·)) :=
  quality_resolver_default_and_distinct "high"
    (by decide) (by decide) (by decide) (by decide)

/-- C9: `/status` always answers `success = true` with a non-empty
`download_folder`, and the body is independent of the filesystem state. -/
theorem status_success_nonempty_folder (home : String) (fs fs' : FsState) :
    get_status home fs = get_status home fs' ∧
      (get_status home fs).success = true ∧
      (get_status home fs).download_folder ≠ "" := by
  refine ⟨rfl, rfl, ?_⟩
  intro h
  have h2 : home ++ "/Downloads/YouTube" = "" := h
  have h3 := congrArg String.length h2
  rw [String.length_append] at h3
  have h4 : ("/Downloads/YouTube" : String).length = 18 := rfl
  have h5 : ("" : String).length = 0 := rfl
  omega

/-- C3: whenever `url` is present, `/download` answers
`{success: true, message: <string>}` with the job merely scheduled
(`quality` defaulting to `"1080"` when absent), and the acknowledgment is
identical no matter how the scheduled job later turns out. -/
theorem download_ack_independent_of_job (r : Request) (url home serverDir : String)
    (w w' : DlWorld) (hurl : getParam r "url" = some url) :
    ∃ res res',
      download_endpoint r home serverDir w =
        .handled ({ success := true
                    message := "Download started! Check your Downloads/YouTube folder." },
                  res) ∧
      download_endpoint r home serverDir w' =
        .handled ({ success := true
                    message := "Download started! Check your Downloads/YouTube folder." },
                  res') ∧
      download_route r =
        .handled ({ success := true
                    message := "Download started! Check your Downloads/YouTube folder." },
                  { url := url, quality := (getParam r "quality").getD "1080" }) := by
  refine ⟨do_download url ((getParam r "quality").getD "1080") home serverDir w,
    do_download url ((getParam r "quality").getD "1080") home serverDir w', ?_, ?_, ?_⟩ <;>
    simp [download_endpoint, download_route, download_video, hurl]

/-- C3 witness: a concrete request with `url` present and no `quality`
receives the success acknowledgment under two worlds in which the job
respectively succeeds and fails. -/
theorem download_ack_independent_of_job_witness :
    ∃ res res',
      download_endpoint ⟨[("url", "https://y.tb/v")]⟩ "/h" "/srv"
          ⟨.ok (), false, fun _ => .ok ⟨some "T"⟩⟩ =
        .handled ({ success := true
                    message := "Download started! Check your Downloads/YouTube folder." },
                  res) ∧
      download_endpoint ⟨[("url", "https://y.tb/v")]⟩ "/h" "/srv"
          ⟨.error "disk full", false, fun _ => .error "network"⟩ =
        .handled ({ success := true
                    message := "Download started! Check your Downloads/YouTube folder." },
                  res') ∧
      download_route ⟨[("url", "https://y.tb/v")]⟩ =
        .handled ({ success := true
                    message := "Download started! Check your Downloads/YouTube folder." },
                  { url := "https://y.tb/v", quality := "1080" }) :=
  download_ack_independent_of_job ⟨[("url", "https://y.tb/v")]⟩ "https://y.tb/v"
    "/h" "/srv" ⟨.ok (), false, fun _ => .ok ⟨some "T"⟩⟩
    ⟨.error "disk full", false, fun _ => .error "network"⟩ rfl

/-- C4: when the collaborator's metadata query fails, `/info` answers the
failure shape `{success: false, message: str(e)}` as a handled body
(nothing escapes to the HTTP layer) and the transport status is 200. -/
theorem info_failure_shape_status_200 (r : Request) (url e : String)
    (collab : String → Except String VideoInfo)
    (hurl : getParam r "url" = some url) (herr : collab url = .error e) :
    info_route r collab = .handled (.err e) ∧
      http_status (info_route r collab) = 200 := by
  have hbody : info_route r collab = .handled (.err e) := by
    simp [info_route, hurl, get_video_info, herr]
  exact ⟨hbody, by rw [hbody]; rfl⟩

/-- C4 witness: a concrete failing extraction yields the failure body and
status 200. -/
theorem info_failure_shape_status_200_witness :
    info_route ⟨[("url", "https://y.tb/v")]⟩ (fun _ => .error "Video unavailable") =
        .handled (.err "Video unavailable") ∧
      http_status (info_route ⟨[("url", "https://y.tb/v")]⟩
        (fun _ => .error "Video unavailable")) = 200 :=
  info_failure_shape_status_200 ⟨[("url", "https://y.tb/v")]⟩ "https://y.tb/v"
    "Video unavailable" (fun _ => .error "Video unavailable") rfl rfl

/-- C8: a request lacking `url` is rejected by the routing layer with a
client-error status (422) on both `/info` and `/download`, and the
outcome does not depend on the collaborator or the job world — the
collaborator is never invoked. -/
theorem missing_url_client_error (r : Request) (hurl : getParam r "url" = none) :
    (∀ collab collab' : String → Except String VideoInfo,
        info_route r collab = .clientError 422 ∧
        info_route r collab = info_route r collab') ∧
      (∀ (home serverDir : String) (w : DlWorld),
        download_endpoint r home serverDir w = .clientError 422) ∧
      400 ≤ http_status (download_route r) ∧ http_status (download_route r) < 500 := by
  refine ⟨fun collab collab' => ?_, fun home serverDir w => ?_, ?_, ?_⟩ <;>
    simp [info_route, download_endpoint, download_route, http_status, hurl]

/-- C8 witness: a request carrying only `quality` is rejected on both
routes without consulting the collaborator. -/
theorem missing_url_client_error_witness :
    (info_route ⟨[("quality", "720")]⟩ (fun _ => .error "never called") =
        .clientError 422 ∧
      info_route ⟨[("quality", "720")]⟩ (fun _ => .error "never called") =
        info_route ⟨[("quality", "720")]⟩ (fun _ => .ok ⟨none, none, none, none, none⟩)) ∧
      download_endpoint ⟨[("quality", "720")]⟩ "/h" "/srv"
          ⟨.ok (), true, fun _ => .ok ⟨some "T"⟩⟩ = .clientError 422 := by
  have h := missing_url_client_error ⟨[("quality", "720")]⟩ rfl
  exact ⟨h.1 _ _, h.2.1 "/h" "/srv" _⟩

/-- C2 counterexample: `os.makedirs` runs before the `try` block of
`do_download`, so a filesystem failure while ensuring the output
directory exists propagates to the caller instead of being caught —
refuting the claim that no exception ever escapes the job runner. -/
theorem do_download_propagates_makedirs_error :
    do_download "https://y.tb/v" "1080" "/h" "/srv"
        ⟨.error "permission denied", false, fun _ => .ok ⟨some "T"⟩⟩ =
      .error "permission denied" ∧
    ¬ (∀ (url quality home serverDir : String) (w : DlWorld),
        ∃ res, do_download url quality home serverDir w = .ok res) := by
  refine ⟨rfl, fun h => ?_⟩
  obtain ⟨res, hres⟩ := h "https://y.tb/v" "1080" "/h" "/srv"
    ⟨.error "permission denied", false, fun _ => .ok ⟨some "T"⟩⟩
  exact absurd hres (by simp [do_download])

/-- C2 (amended): once the output directory has been ensured, the job
runner never propagates an exception: any collaborator failure is caught
inside the `try`, logged to the console, and swallowed. -/
theorem do_download_catches_collaborator_errors
    (url quality home serverDir : String) (w : DlWorld)
    (hmk : w.makedirs = .ok ()) :
    ∃ res, do_download url quality home serverDir w = .ok res ∧
      ∀ e, w.extract url = .error e → LogLine.errorLine e ∈ res.logs := by
  cases hx : w.extract url with
  | ok info =>
      simp only [do_download, hmk, hx]
      exact ⟨_, rfl, fun e he => absurd he (by simp)⟩
  | error e =>
      simp only [do_download, hmk, hx]
      refine ⟨_, rfl, fun e' he' => ?_⟩
      rw [Except.error.injEq] at he'
      rw [← he']
      simp

/-- C2 witness: with the directory ensured and a failing collaborator,
the job completes normally and logs the error line. -/
theorem do_download_catches_collaborator_errors_witness :
    ∃ res, do_download "https://y.tb/v" "720" "/h" "/srv"
        ⟨.ok (), true, fun _ => .error "network down"⟩ = .ok res ∧
      LogLine.errorLine "network down" ∈ res.logs := by
  obtain ⟨res, h1, h2⟩ := do_download_catches_collaborator_errors
    "https://y.tb/v" "720" "/h" "/srv"
    ⟨.ok (), true, fun _ => .error "network down"⟩ rfl
  exact ⟨res, h1, h2 "network down" rfl⟩

/-- C7: when the output directory is ensured first (and a failure there
aborts the job before the collaborator is touched), the options bundle
handed to the collaborator carries the resolved format expression, the
title-and-resolution output template under the download folder, the mp4
merge directive, the no-playlist directive, and a cookie file path
exactly when the cookie file exists beside the server's source. -/
theorem download_opts_bundle (url quality home serverDir : String) (w : DlWorld) :
    (∀ e, w.makedirs = .error e →
        do_download url quality home serverDir w = .error e) ∧
      (w.makedirs = .ok () →
        ∃ res, do_download url quality home serverDir w = .ok res ∧
          res.opts = build_ydl_opts quality home serverDir w.cookieExists ∧
          res.opts.format = get_quality_format quality ∧
          res.opts.outtmpl =
            DOWNLOAD_FOLDER home ++ "/%(title)s_%(height)sp.%(ext)s" ∧
          res.opts.merge_output_format = "mp4" ∧
          res.opts.noplaylist = true ∧
          (res.opts.cookiefile = some (COOKIE_FILE serverDir) ↔
            w.cookieExists = true) ∧
          (res.opts.cookiefile = none ↔ w.cookieExists = false)) := by
  constructor
  · intro e he
    simp [do_download, he]
  · intro hmk
    cases hx : w.extract url with
    | ok info =>
        simp only [do_download, hmk, hx]
        refine ⟨_, rfl, rfl, rfl, rfl, rfl, rfl, ?_, ?_⟩ <;>
          cases hc : w.cookieExists <;>
            simp [build_ydl_opts, hc, COOKIE_FILE]
    | error e =>
        simp only [do_download, hmk, hx]
        refine ⟨_, rfl, rfl, rfl, rfl, rfl, rfl, ?_, ?_⟩ <;>
          cases hc : w.cookieExists <;>
            simp [build_ydl_opts, hc, COOKIE_FILE]

/-- C7 witness: concrete job with the cookie file present: the bundle
carries the 480p expression, the output template, the merge and
no-playlist directives, and the cookie path. -/
theorem download_opts_bundle_witness :
    ∃ res, do_download "https://y.tb/v" "480" "/h" "/srv"
        ⟨.ok (), true, fun _ => .ok ⟨some "T"⟩⟩ = .ok res ∧
      res.opts = build_ydl_opts "480" "/h" "/srv" true ∧
      res.opts.format = get_quality_format "480" ∧
      res.opts.outtmpl = DOWNLOAD_FOLDER "/h" ++ "/%(title)s_%(height)sp.%(ext)s" ∧
      res.opts.merge_output_format = "mp4" ∧
      res.opts.noplaylist = true ∧
      (res.opts.cookiefile = some (COOKIE_FILE "/srv") ↔ true = true) ∧
      (res.opts.cookiefile = none ↔ true = false) :=
  (download_opts_bundle "https://y.tb/v" "480" "/h" "/srv"
    ⟨.ok (), true, fun _ => .ok ⟨some "T"⟩⟩).2 rfl

/-- C5: a successful `/info` call projects the metadata to
`{success: true, title, channel, duration, thumbnail, formats}` with
`title` and `channel` defaulting to `"Unknown"`, `duration` to `0` and
`thumbnail` to `""` when the corresponding key is absent. -/
theorem info_success_projection (info : VideoInfo) :
    ∃ t c d th fmts,
      get_video_info (.ok info) = .ok t c d th fmts ∧
      (info.title = none → t = "Unknown") ∧ (∀ s, info.title = some s → t = s) ∧
      (info.channel = none → c = "Unknown") ∧ (∀ s, info.channel = some s → c = s) ∧
      (info.duration = none → d = 0) ∧ (∀ n, info.duration = some n → d = n) ∧
      (info.thumbnail = none → th = "") ∧ (∀ s, info.thumbnail = some s → th = s) ∧
      fmts = collectFormats (info.formats.getD []) := by
  refine ⟨_, _, _, _, _, rfl, ?_, ?_, ?_, ?_, ?_, ?_, ?_, ?_, rfl⟩ <;>
    first
      | (intro h; simp [h])
      | (intro s h; simp [h])

/-- C5 witness: the all-absent metadata dictionary projects to the
documented defaults. -/
theorem info_success_projection_witness :
    ∃ t c d th fmts,
      get_video_info (.ok ⟨none, none, none, none, none⟩) = .ok t c d th fmts ∧
      t = "Unknown" ∧ c = "Unknown" ∧ d = 0 ∧ th = "" := by
  obtain ⟨t, c, d, th, fmts, heq, ht, _, hc, _, hd, _, hth, _, _⟩ :=
    info_success_projection ⟨none, none, none, none, none⟩
  exact ⟨t, c, d, th, fmts, heq, ht rfl, hc rfl, hd rfl, hth rfl⟩

/-- C6 counterexample: a metadata entry with a height and `mp4` container
but no format identifier is kept by the filter, yet its `format_id` in
the response is absent — refuting the claim that the matching response
entry always carries a non-empty `format_id`. -/
theorem info_formats_format_id_counterexample :
    ¬ (∀ (info : VideoInfo), ∀ f ∈ info.formats.getD [],
        heightTruthy f.height = true → f.ext = some "mp4" →
        ∃ out ∈ infoFormats (get_video_info (.ok info)),
          out.height = f.height ∧ out.format_id ≠ none ∧ out.format_id ≠ some "") := by
  intro h
  obtain ⟨out, hmem, _, hne, _⟩ :=
    h badFormatsInfo ⟨some 360, some "mp4", none⟩ (by decide) (by decide) rfl
  have hfo : infoFormats (get_video_info (.ok badFormatsInfo)) =
      [⟨some 360, none⟩] := by decide
  rw [hfo] at hmem
  exact hne (by rw [List.mem_singleton.1 hmem])

/-- C6 (amended): every metadata entry with a truthy height and `mp4`
container contributes a response entry with the matching height and the
entry's own format identifier (absent only when the metadata lacks one),
and every response entry arises from such a metadata entry — entries
lacking a height or in another container are excluded. -/
theorem info_formats_filter (info : VideoInfo) :
    (∀ f ∈ info.formats.getD [],
        heightTruthy f.height = true → f.ext = some "mp4" →
        (⟨f.height, f.format_id⟩ : FormatOut) ∈
          infoFormats (get_video_info (.ok info))) ∧
      (∀ out ∈ infoFormats (get_video_info (.ok info)),
        ∃ f ∈ info.formats.getD [],
          heightTruthy f.height = true ∧ f.ext = some "mp4" ∧
          out.height = f.height ∧ out.format_id = f.format_id) := by
  constructor
  · intro f hf h1 h2
    exact (mem_collectFormats_iff (info.formats.getD []) _).2 ⟨f, hf, h1, h2, rfl⟩
  · intro out hout
    obtain ⟨f, hf, h1, h2, heq⟩ :=
      (mem_collectFormats_iff (info.formats.getD []) out).1 hout
    exact ⟨f, hf, h1, h2, by rw [heq], by rw [heq]⟩

/-- C6 witness: a well-formed `mp4` entry of height 720 and identifier
`"22"` appears in the response formats list. -/
theorem info_formats_filter_witness :
    (⟨some 720, some "22"⟩ : FormatOut) ∈
      infoFormats (get_video_info (.ok goodFormatsInfo)) :=
  (info_formats_filter goodFormatsInfo).1 ⟨some 720, some "mp4", some "22"⟩
    (by decide) (by decide) rfl

/-- C10: inclusion in the `/info` formats list tests the truthiness of
`height`, not key presence: every included entry has a non-zero height,
and a metadata entry with `height` present but `0` is excluded even
though its container is `mp4`. -/
theorem info_height_truthiness (info : VideoInfo) :
    (∀ out ∈ infoFormats (get_video_info (.ok info)),
        ∃ n : Int, out.height = some n ∧ n ≠ 0) ∧
      infoFormats (get_video_info (.ok zeroHeightInfo)) = [] := by
  constructor
  · intro out hout
    obtain ⟨f, _, h1, _, heq⟩ :=
      (mem_collectFormats_iff (info.formats.getD []) out).1 hout
    cases hh : f.height with
    | none => rw [hh] at h1; exact absurd h1 (by simp [heightTruthy])
    | some n =>
        refine ⟨n, by simp [heq, hh], ?_⟩
        rw [hh] at h1
        simpa [heightTruthy] using h1
  · decide

/-- C10 witness: the included 720p entry indeed has a non-zero height. -/
theorem info_height_truthiness_witness :
    ∃ n : Int, (⟨some 720, some "22"⟩ : FormatOut).height = some n ∧ n ≠ 0 :=
  (info_height_truthiness goodFormatsInfo).1 ⟨some 720, some "22"⟩ (by decide)

end YtServer
